import Mathlib

/-
Verification of the execution-orchestration layer of the spikesorters
repository: the dispatcher (run_sorter), the local launcher
(_run_sorter_local), the container launcher (_run_sorter_hither with its
hither hook SpikeSortingDockerHook.precontainer and the in-container
function run_sorter_docker_with_container), the registry
(sorter_full_list / sorter_dict / available_sorters / installed_sorters),
and the Mountainsort4 backend (Mountainsort4Sorter._run and
Mountainsort4Sorter.get_result_from_folder).

The embedding is shallow: Python functions become Lean functions, and the
filesystem / process side effects a call performs are recorded as an
explicit ordered trace of Effect values returned alongside the result.
External collaborator calls (the ml_ms4alg algorithm, the serializers of
spikeextractors) are either oracles passed as parameters or definitions
modelled from the spec, each marked as such in its doc comment.
-/

namespace SpikeSorters

/-- A detected spike event: its time index and its integer unit label.
The ResultSet handed between a backend and the result bridge is the list
of such events (spec section 4.6: the binary artifact enumerates, per
detected event, its time index and an integer unit label). -/
structure SpikeEvent where
  time : Nat
  label : Nat
deriving DecidableEq, Repr

/-- The aspects of a RecordingExtractor (the Dataset collaborator) that the
orchestration code under src/ consults: the serializability predicate
`is_dumpable`, the pre-filtered flag `is_filtered`, and
`get_sampling_frequency`. -/
structure Recording where
  is_dumpable : Bool
  is_filtered : Bool
  sampling_frequency : Nat
deriving DecidableEq, Repr

/-- A sorter class as the registry sees it: its `sorter_name` identifier and
its `compatible_with_parallel` flags (per joblib worker-pool backend:
supported or not). -/
structure SorterClass where
  sorter_name : String
  compatible_with_parallel : List (String × Bool)
deriving DecidableEq, Repr

/-- The first argument of run_sorter: either an identifier string or a
direct class reference (Python dispatches on isinstance(..., str)). -/
inductive SorterRef where
  | byName (s : String)
  | byClass (c : SorterClass)
deriving DecidableEq, Repr

/-- The failure kinds the embedded code can raise, in the taxonomy of the
spec: `unknownBackend` stands for the KeyError of `sorter_dict[name]` and
for ValueError of the unknown-sorter branches; `backendUnavailable` for the
`assert HAVE_DOCKER`; `notTransportable` for the
`assert recording.is_dumpable`; `unsupportedConcurrencyModel` for the
worker-pool compatibility rejection. -/
inductive SorterError where
  | unknownBackend
  | backendUnavailable
  | notTransportable
  | unsupportedConcurrencyModel
deriving DecidableEq, Repr

/-- Observable side effects of a call, recorded in program order.
`mkdirOutput p` is the creation of the OutputLocation `p`;
`containerJobRun` is the submission of the hither job; the remaining
constructors record file writes and reads, the deletion of the output
folder, the already-filtered warning print, and the stages of the
Mountainsort4 pipeline. -/
inductive Effect where
  | mkdirOutput (path : String)
  | containerJobRun
  | writeFile (path : String)
  | readFile (path : String)
  | deleteFolder (path : String)
  | printWarning
  | bandpassApplied
  | whitenApplied
  | sorterInvoked
  | curationRun
deriving DecidableEq, Repr

/-- Contents of a file in an OutputLocation: `mda` is the binary
spike-event artifact as its flat number stream, `text` is a plain-text
decimal scalar held as its little-endian digit list. -/
inductive FileContent where
  | mda (stream : List Nat)
  | text (digits : List Nat)
deriving DecidableEq, Repr

/-- The directory listing of an OutputLocation: file name paired with content. -/
abbrev OutputFolder := List (String × FileContent)

/-- Options threaded through run_sorter, _run_sorter_local and
_run_sorter_hither (the keyword arguments of the Python functions that the
orchestration itself inspects). -/
structure RunOptions where
  output_folder : Option String
  delete_output_folder : Bool
  grouping_property : Option String
  parallel : Bool
  verbose : Bool
  raise_error : Bool
  n_jobs : Int
  joblib_backend : String
deriving DecidableEq, Repr

end SpikeSorters

namespace SpikeSorters

/-- The `compatible_with_parallel` flags of Mountainsort4Sorter
(mountainsort4.py line 25). -/
def Mountainsort4Sorter : SorterClass :=
  { sorter_name := "mountainsort4",
    compatible_with_parallel :=
      [("loky", true), ("multiprocessing", false), ("threading", false)] }

/-- sorter_full_list of sorterlist.py lines 20 to 35, in its order.
Modelled from the spec for the thirteen classes other than
Mountainsort4Sorter: those classes are imported into sorterlist.py from
modules absent from src/. Their identifier strings are taken from the
run_hdsort, run_klusta, ... wrapper functions of sorterlist.py, which call
run_sorter with the corresponding identifier; their concurrency flags are
not visible, so they are modelled as empty. -/
def sorter_full_list : List SorterClass :=
  [ { sorter_name := "hdsort", compatible_with_parallel := [] },
    { sorter_name := "klusta", compatible_with_parallel := [] },
    { sorter_name := "tridesclous", compatible_with_parallel := [] },
    Mountainsort4Sorter,
    { sorter_name := "ironclust", compatible_with_parallel := [] },
    { sorter_name := "kilosort", compatible_with_parallel := [] },
    { sorter_name := "kilosort2", compatible_with_parallel := [] },
    { sorter_name := "kilosort2_5", compatible_with_parallel := [] },
    { sorter_name := "kilosort3", compatible_with_parallel := [] },
    { sorter_name := "spykingcircus", compatible_with_parallel := [] },
    { sorter_name := "herdingspikes", compatible_with_parallel := [] },
    { sorter_name := "waveclus", compatible_with_parallel := [] },
    { sorter_name := "yass", compatible_with_parallel := [] },
    { sorter_name := "combinato", compatible_with_parallel := [] } ]

/-- sorter_dict of sorterlist.py line 37: the dict comprehension over
sorter_full_list, as an association list. The fourteen sorter names are
pairwise distinct (sorter_names_nodup below), so the comprehension neither
drops nor overwrites an entry and first-match lookup agrees with the
Python dict. -/
def sorter_dict : List (String × SorterClass) :=
  sorter_full_list.map (fun s => (s.sorter_name, s))

/-- Python string comparison on char code points, on the char lists. -/
def lexLe : List Char → List Char → Bool
  | [], _ => true
  | _ :: _, [] => false
  | a :: as, b :: bs =>
    if a.toNat < b.toNat then true
    else if b.toNat < a.toNat then false
    else lexLe as bs

/-- Python string comparison: lexicographic by code point. -/
def strLeB (a b : String) : Bool := lexLe a.data b.data

/-- Python sorted on a list of strings: a stable comparison sort under the
code-point order, modelled as insertion sort (also stable). -/
def pySorted (l : List String) : List String :=
  l.insertionSort (fun a b => strLeB a b = true)

/-- available_sorters of sorterlist.py lines 254 to 258: the sorted keys of
sorter_dict. -/
def available_sorters : List String :=
  pySorted (sorter_dict.map Prod.fst)

/-- installed_sorters of sorterlist.py lines 261 to 266: the sorted names of
the sorters of sorter_full_list whose is_installed classmethod returns
true. The per-class installed predicate probes the importability of an
external package, so it is a parameter. -/
def installed_sorters (is_installed : SorterClass → Bool) : List String :=
  pySorted ((sorter_full_list.filter is_installed).map (fun s => s.sorter_name))

end SpikeSorters

namespace SpikeSorters

/-- The outcome of a launcher call: either an error or a ResultSet, paired
with the ordered trace of side effects the call performed before
returning or failing. -/
abbrev Outcome := Except SorterError (List SpikeEvent) × List Effect

/-- The behaviour of a resolved sorter class on a dataset: building the
lifecycle instance, set_params, run and get_result
(sorterlist.py lines 245 to 249). The bodies are per-backend code, so the
launcher model is generic over this execution function. -/
abbrev ExecFn := SorterClass → Recording → RunOptions → Outcome

/-- Backend resolution of _run_sorter_local, sorterlist.py lines 238 to
243: a string is looked up in sorter_dict (KeyError when absent), a class
must be a member of sorter_full_list (ValueError otherwise). -/
def resolveLocal : SorterRef → Except SorterError SorterClass
  | SorterRef.byName s =>
    match sorter_dict.lookup s with
    | some c => Except.ok c
    | none => Except.error SorterError.unknownBackend
  | SorterRef.byClass c =>
    if c ∈ sorter_full_list then Except.ok c
    else Except.error SorterError.unknownBackend

/-- Backend resolution of the docker branch of run_sorter, sorterlist.py
lines 91 to 96: a string is taken as the sorter name WITHOUT a registry
lookup; a class must be a member of sorter_full_list (ValueError
otherwise) and contributes its sorter_name. -/
def resolveDockerName : SorterRef → Except SorterError String
  | SorterRef.byName s => Except.ok s
  | SorterRef.byClass c =>
    if c ∈ sorter_full_list then Except.ok c.sorter_name
    else Except.error SorterError.unknownBackend

/-- The local launcher _run_sorter_local of sorterlist.py lines 192 to
251: resolve the sorter class, then build and drive the lifecycle (the
latter abstracted by the execution function). A resolution failure raises
before the sorter object exists, so its trace is empty. -/
def run_sorter_local (ex : ExecFn) (ref : SorterRef) (rec : Recording)
    (opts : RunOptions) : Outcome :=
  match resolveLocal ref with
  | Except.error e => (Except.error e, [])
  | Except.ok c => ex c rec opts

/-- The in-container function run_sorter_docker_with_container of
sorterlist.py lines 143 to 155: rewrite output_folder to
output_directory/working, run _run_sorter_local with the sorter name, and
on success write the single npz result archive into the output
directory. -/
def run_sorter_docker_with_container (ex : ExecFn) (sorter_name : String)
    (rec : Recording) (opts : RunOptions) (output_directory : String) :
    Outcome :=
  let opts2 := { opts with
    output_folder := some (output_directory ++ "/working") }
  let inner := run_sorter_local ex (SorterRef.byName sorter_name) rec opts2
  match inner.1 with
  | Except.error e => (Except.error e, inner.2)
  | Except.ok s =>
    (Except.ok s,
      inner.2 ++ [Effect.writeFile (output_directory ++ "/sorting_docker.npz")])

/-- The output-folder defaulting of _run_sorter_hither, sorterlist.py
lines 161 to 163: the folder given by the caller, or sorter_name plus the _output
suffix. -/
def hitherOutputFolder (sorter_name : String) (opts : RunOptions) : String :=
  match opts.output_folder with
  | some f => f
  | none => sorter_name ++ "_output"

/-- The container launcher _run_sorter_hither of sorterlist.py lines 157
to 183: assert the recording is dumpable (before any filesystem effect),
default and create the host output folder, submit the container job and
wait, read the npz archive back, and optionally delete the output
folder. The job runs with delete_output_folder forced to False
(line 171). -/
def run_sorter_hither (ex : ExecFn) (sorter_name : String) (rec : Recording)
    (opts : RunOptions) : Outcome :=
  if rec.is_dumpable = false then
    (Except.error SorterError.notTransportable, [])
  else
    let output_folder := hitherOutputFolder sorter_name opts
    let jobOpts := { opts with delete_output_folder := false }
    let job := run_sorter_docker_with_container ex sorter_name rec jobOpts
      output_folder
    let pre := Effect.mkdirOutput output_folder :: Effect.containerJobRun ::
      job.2
    match job.1 with
    | Except.error e => (Except.error e, pre)
    | Except.ok s =>
      (Except.ok s,
        pre ++ [Effect.readFile (output_folder ++ "/sorting_docker.npz")] ++
          (if opts.delete_output_folder then
            [Effect.deleteFolder output_folder] else []))

/-- The dispatcher run_sorter of sorterlist.py lines 39 to 106: on the
docker path, assert HAVE_DOCKER, resolve the sorter name, and call
_run_sorter_hither; otherwise call _run_sorter_local. `haveDocker` is the
HAVE_DOCKER capability probe of docker_tools. -/
def run_sorter (haveDocker : Bool) (ex : ExecFn) (ref : SorterRef)
    (rec : Recording) (opts : RunOptions) (use_docker : Bool) : Outcome :=
  if use_docker then
    if haveDocker = false then
      (Except.error SorterError.backendUnavailable, [])
    else
      match resolveDockerName ref with
      | Except.error e => (Except.error e, [])
      | Except.ok name => run_sorter_hither ex name rec opts
  else run_sorter_local ex ref rec opts

/-- Is the reference a registered backend (a key of sorter_dict, or a
member of sorter_full_list)? -/
def registeredRef : SorterRef → Bool
  | SorterRef.byName s => (sorter_dict.lookup s).isSome
  | SorterRef.byClass c => decide (c ∈ sorter_full_list)

/-- Modelled from the spec: BaseSorter.run is code of this repository
absent from src/ (only its caller _run_sorter_local and the per-class
compatible_with_parallel flags are present). The spec says the registry
compatibility flags gate which worker-pool backends are permitted for an
algorithm and that an incompatible selection is rejected with
UnsupportedConcurrencyModel before any work starts. `body` is the trace
the gated run would perform. -/
def BaseSorter_run (c : SorterClass) (parallel : Bool)
    (joblib_backend : String) (body : List Effect) :
    Except SorterError Unit × List Effect :=
  if parallel ∧ c.compatible_with_parallel.lookup joblib_backend = some false
  then (Except.error SorterError.unsupportedConcurrencyModel, [])
  else (Except.ok (), body)

end SpikeSorters

namespace SpikeSorters

/-- The Mountainsort4 parameter set, mountainsort4.py lines 27 to 42.
Frequencies and thresholds are rationals; `none` stands for the Python
None. -/
structure MS4Params where
  detect_sign : Int
  adjacency_radius : Int
  freq_min : Option ℚ
  freq_max : Option ℚ
  filter : Bool
  whiten : Bool
  curation : Bool
  num_workers : Option Nat
  clip_size : Nat
  detect_threshold : ℚ
  detect_interval : Nat
  noise_overlap_threshold : Option ℚ
  add_end_clip : Nat
  freq_width : ℚ
deriving DecidableEq, Repr

/-- Mountainsort4Sorter._default_params, mountainsort4.py lines 27
to 42. -/
def ms4_default_params : MS4Params :=
  { detect_sign := -1,
    adjacency_radius := -1,
    freq_min := some 300,
    freq_max := some 6000,
    filter := true,
    whiten := true,
    curation := false,
    num_workers := none,
    clip_size := 50,
    detect_threshold := 3,
    detect_interval := 10,
    noise_overlap_threshold := some (15 / 100),
    add_end_clip := 0,
    freq_width := 1000 }

/-- Modelled from the spec: ml_ms4alg.mountainsort4_curation is external
library code. The spec describes curation as dropping the units whose
estimated noise overlap exceeds the threshold, deterministically. The
noise-overlap estimate per unit label is the oracle `noiseOverlap`; every
event of a dropped unit is removed. -/
def mountainsort4_curation (noiseOverlap : Nat → ℚ)
    (sorting : List SpikeEvent) (noise_overlap_threshold : ℚ) :
    List SpikeEvent :=
  sorting.filter (fun e => noiseOverlap e.label ≤ noise_overlap_threshold)

/-- Modelled from the spec: MdaSortingExtractor.write_sorting serializes
the result into the binary artifact; the spec says the artifact
enumerates, per detected event, its time index and an integer unit label.
The encoding is the flat stream of (time, label) pairs. -/
def mdaEncode (sorting : List SpikeEvent) : List Nat :=
  sorting.flatMap (fun e => [e.time, e.label])

/-- Modelled from the spec: the MdaSortingExtractor read side; decodes the
flat stream back into events, failing on a truncated stream. -/
def mdaDecode : List Nat → Option (List SpikeEvent)
  | [] => some []
  | t :: l :: rest =>
    (mdaDecode rest).map (fun es => { time := t, label := l } :: es)
  | [_] => none

/-- The write step of Mountainsort4Sorter._run, mountainsort4.py lines 131
to 135: write firings.mda (the serialized result) and samplerate.txt (the
sampling rate as a decimal scalar, held as its digit list) directly under
the output folder. -/
def ms4_write_result (sorting : List SpikeEvent) (samplerate : Nat) :
    OutputFolder :=
  [ ("firings.mda", FileContent.mda (mdaEncode sorting)),
    ("samplerate.txt", FileContent.text (Nat.digits 10 samplerate)) ]

/-- Mountainsort4Sorter.get_result_from_folder, mountainsort4.py lines 137
to 148: read samplerate.txt, parse it as a scalar, then read firings.mda
and decode it with the sampling rate attached. Returns the parsed result
and the ordered list of file names read. -/
def get_result_from_folder (folder : OutputFolder) :
    Option (List SpikeEvent × Nat) × List String :=
  match folder.lookup "samplerate.txt" with
  | some (FileContent.text ds) =>
    (match folder.lookup "firings.mda" with
     | some (FileContent.mda stream) =>
       ((mdaDecode stream).map (fun es => (es, Nat.ofDigits 10 ds)),
        ["samplerate.txt", "firings.mda"])
     | _ => (none, ["samplerate.txt", "firings.mda"]))
  | _ => (none, ["samplerate.txt"])

/-- Mountainsort4Sorter._run, mountainsort4.py lines 87 to 135: warn when
the recording is already filtered and the filter parameter is on; apply
the bandpass filter when the filter parameter is on and both cutoff
frequencies are not None; whiten when the whiten parameter is on; invoke
the external algorithm (the oracle `ms4alg`, standing for
ml_ms4alg.mountainsort4 on the preprocessed recording); curate when
noise_overlap_threshold is not None AND curation is True; finally write
firings.mda and samplerate.txt. Returns the output folder contents and
the ordered trace. -/
def Mountainsort4Sorter_run (ms4alg : List SpikeEvent)
    (noiseOverlap : Nat → ℚ) (rec : Recording) (p : MS4Params) :
    OutputFolder × List Effect :=
  let warnTrace :=
    if rec.is_filtered ∧ p.filter then [Effect.printWarning] else []
  let samplerate := rec.sampling_frequency
  let filtTrace :=
    if p.filter ∧ p.freq_min.isSome ∧ p.freq_max.isSome then
      [Effect.bandpassApplied] else []
  let whitenTrace := if p.whiten then [Effect.whitenApplied] else []
  let step :=
    match p.noise_overlap_threshold, p.curation with
    | some thr, true =>
      (mountainsort4_curation noiseOverlap ms4alg thr, [Effect.curationRun])
    | _, _ => (ms4alg, ([] : List Effect))
  (ms4_write_result step.1 samplerate,
    warnTrace ++ filtTrace ++ whitenTrace ++ [Effect.sorterInvoked] ++
      step.2 ++
      [Effect.writeFile "firings.mda", Effect.writeFile "samplerate.txt"])

/-- A bind mount of the container runtime: host source path, container
target path, read-only flag (hither.BindMount). -/
structure BindMount where
  source : String
  target : String
  read_only : Bool
deriving DecidableEq, Repr

/-- The part of hither.PreContainerContext that
SpikeSortingDockerHook.precontainer touches: the input_directory and
output_directory keyword arguments, the accumulated bind mounts, and the
selected image. -/
structure PreContainerContext where
  input_directory : String
  output_directory : String
  sorter_name : String
  bindMounts : List BindMount
  image : Option String
deriving DecidableEq, Repr

/-- SpikeSortingDockerHook.precontainer, sorterlist.py lines 123 to 135:
bind-mount the host input directory read-only at /input and the host
output directory read-write at /output, select the image for the sorter
from the image table (`images`, standing for default_docker_images of
docker_tools, absent from src/), and rewrite the in-container path
keyword arguments to the fixed container paths. -/
def precontainer (images : String → String) (ctx : PreContainerContext) :
    PreContainerContext :=
  { ctx with
    bindMounts := ctx.bindMounts ++
      [ { source := ctx.input_directory, target := "/input",
          read_only := true },
        { source := ctx.output_directory, target := "/output",
          read_only := false } ],
    image := some (images ctx.sorter_name),
    output_directory := "/output",
    input_directory := "/input" }

end SpikeSorters

namespace SpikeSorters

/-- A sample execution behaviour used to instantiate the launcher theorems
at concrete inputs: it succeeds with the empty result and performs no
effects. -/
def anyExec : ExecFn := fun _ _ _ => (Except.ok [], [])

/-- A dumpable, not-yet-filtered recording sampled at 30 kHz. -/
def rec0 : Recording :=
  { is_dumpable := true, is_filtered := false, sampling_frequency := 30000 }

/-- A recording whose pre-filtered flag is set. -/
def recFiltered : Recording :=
  { is_dumpable := true, is_filtered := true, sampling_frequency := 30000 }

/-- The default keyword arguments of run_sorter, sorterlist.py lines 39
to 41. -/
def defaultOpts : RunOptions :=
  { output_folder := none, delete_output_folder := false,
    grouping_property := none, parallel := false, verbose := false,
    raise_error := true, n_jobs := -1, joblib_backend := "loky" }

/-- The Mountainsort4 defaults with the curation stage switched on. -/
def ms4_params_with_curation : MS4Params :=
  { ms4_default_params with curation := true }

end SpikeSorters

namespace SpikeSorters

/-- Totality of the code-point comparison on char lists. -/
theorem lexLe_total (x y : List Char) : lexLe x y = true ∨ lexLe y x = true := by
  induction x generalizing y with
  | nil => left; rfl
  | cons a as ih =>
    cases y with
    | nil => right; rfl
    | cons b bs =>
      by_cases hab : a.toNat < b.toNat
      · left; simp [lexLe, hab]
      · by_cases hba : b.toNat < a.toNat
        · right; simp [lexLe, hba]
        · rcases ih bs with h | h
          · left; simp [lexLe, hab, hba, h]
          · right; simp [lexLe, hab, hba, h]

/-- Transitivity of the code-point comparison on char lists. -/
theorem lexLe_trans (x : List Char) : ∀ y z, lexLe x y = true →
    lexLe y z = true → lexLe x z = true := by
  induction x with
  | nil => intro y z _ _; rfl
  | cons a as ih =>
    intro y z hxy hyz
    cases y with
    | nil => simp [lexLe] at hxy
    | cons b bs =>
      cases z with
      | nil => simp [lexLe] at hyz
      | cons c cs =>
        simp only [lexLe] at hxy hyz ⊢
        by_cases hab : a.toNat < b.toNat <;> by_cases hba : b.toNat < a.toNat <;>
          by_cases hbc : b.toNat < c.toNat <;> by_cases hcb : c.toNat < b.toNat <;>
          simp only [hab, hba, hbc, hcb, if_true, if_false, if_pos, if_neg,
            not_false_iff] at hxy hyz <;>
        · by_cases hac : a.toNat < c.toNat <;> by_cases hca : c.toNat < a.toNat <;>
            simp only [hac, hca, if_true, if_false, if_pos, if_neg] <;>
            first
              | rfl
              | omega
              | (exact ih bs cs hxy hyz)
              | (exact absurd hyz Bool.false_ne_true)
              | (exact absurd hxy Bool.false_ne_true)

/-- pySorted returns a list sorted under the code-point order. -/
theorem pySorted_sorted (l : List String) :
    List.Sorted (fun a b => strLeB a b = true) (pySorted l) :=
  @List.sorted_insertionSort String (fun a b => strLeB a b = true) _
    ⟨fun a b => lexLe_total a.data b.data⟩
    ⟨fun a b c hab hbc => lexLe_trans a.data b.data c.data hab hbc⟩ l

/-- pySorted is a permutation, so membership is preserved. -/
theorem mem_pySorted (l : List String) (s : String) :
    s ∈ pySorted l ↔ s ∈ l :=
  (List.perm_insertionSort (fun a b => strLeB a b = true) l).mem_iff

/-- The fourteen registered sorter names are pairwise distinct, so the
dict comprehension building sorter_dict neither drops nor overwrites an
entry. -/
theorem sorter_names_nodup :
    (sorter_full_list.map (fun s => s.sorter_name)).Nodup := by decide

/-- Looking a registered class up in sorter_dict by its own name returns
that class. -/
theorem lookup_sorter_dict :
    ∀ c ∈ sorter_full_list, sorter_dict.lookup c.sorter_name = some c := by
  decide

/-- Decoding the flat event stream written by mdaEncode restores the
event list. -/
theorem mdaDecode_mdaEncode (l : List SpikeEvent) :
    mdaDecode (mdaEncode l) = some l := by
  induction l with
  | nil => rfl
  | cons e es ih =>
    simp only [mdaEncode, List.flatMap_cons] at ih ⊢
    simp [mdaDecode, ih]

end SpikeSorters

namespace SpikeSorters

/-- C1 counterexample: requesting the unregistered identifier string
"unregistered" with use_docker true (docker available, dumpable
recording) does end in an unknown-backend failure, but only after the
OutputLocation "unregistered_output" has been created: the docker branch
of run_sorter accepts any identifier string without a registry lookup, so
the failure is not raised before the filesystem side effect, contrary to
the claim. -/
theorem run_sorter_docker_unknown_name_creates_folder :
    (run_sorter true anyExec (SorterRef.byName "unregistered") rec0
        defaultOpts true).1 = Except.error SorterError.unknownBackend ∧
    Effect.mkdirOutput "unregistered_output" ∈
      (run_sorter true anyExec (SorterRef.byName "unregistered") rec0
        defaultOpts true).2 :=
  ⟨rfl, by decide⟩

/-- C1 amended: a reference matching no registered backend fails with
UnknownBackend before any filesystem or process side effect (empty trace,
no OutputLocation) on the local path, for identifier strings and class
references alike; on the container path the same holds for class
references, while unregistered identifier strings are not rejected at
dispatch. -/
theorem run_sorter_unknown_rejected_before_effects (haveDocker : Bool)
    (ex : ExecFn) (ref : SorterRef) (rec : Recording) (opts : RunOptions)
    (h : registeredRef ref = false) :
    run_sorter haveDocker ex ref rec opts false =
      (Except.error SorterError.unknownBackend, []) ∧
    (∀ c, ref = SorterRef.byClass c →
      run_sorter true ex ref rec opts true =
        (Except.error SorterError.unknownBackend, [])) := by
  constructor
  · unfold run_sorter run_sorter_local resolveLocal
    cases ref with
    | byName s =>
      simp only [registeredRef, Option.isSome] at h
      cases hl : sorter_dict.lookup s with
      | some c => rw [hl] at h; simp at h
      | none => simp [hl]
    | byClass c =>
      simp only [registeredRef, decide_eq_false_iff_not] at h
      simp [h]
  · intro c hrefc
    subst hrefc
    simp only [registeredRef, decide_eq_false_iff_not] at h
    unfold run_sorter resolveDockerName
    simp [h]

/-- C1 witness: the amended theorem applied to the unregistered
identifier string "unregistered" on the local path. -/
theorem run_sorter_unknown_rejected_before_effects_witness :
    registeredRef (SorterRef.byName "unregistered") = false ∧
    run_sorter true anyExec (SorterRef.byName "unregistered") rec0
      defaultOpts false = (Except.error SorterError.unknownBackend, []) :=
  ⟨by decide,
    (run_sorter_unknown_rejected_before_effects true anyExec
      (SorterRef.byName "unregistered") rec0 defaultOpts (by decide)).1⟩

/-- C2: writing a result and a sampling rate through the write step of
the backend (firings.mda plus samplerate.txt) and reading the location
back through get_result_from_folder reproduces exactly the same events
(unit labels and event indices) and sampling rate. -/
theorem ms4_write_read_round_trip (sorting : List SpikeEvent)
    (samplerate : Nat) :
    (get_result_from_folder (ms4_write_result sorting samplerate)).1 =
      some (sorting, samplerate) := by
  simp [get_result_from_folder, ms4_write_result, List.lookup,
    mdaDecode_mdaEncode, Nat.ofDigits_digits]

/-- C3: for every registered backend class, calling run_sorter with the
identifier string of the class and with the class reference itself yields
the same outcome and the same effect trace, for every execution
behaviour, dataset, options, docker capability and path (use_docker true
or false). -/
theorem run_sorter_name_class_equiv (haveDocker use_docker : Bool)
    (ex : ExecFn) (c : SorterClass) (rec : Recording) (opts : RunOptions)
    (hc : c ∈ sorter_full_list) :
    run_sorter haveDocker ex (SorterRef.byName c.sorter_name) rec opts
      use_docker =
    run_sorter haveDocker ex (SorterRef.byClass c) rec opts use_docker := by
  have hlook := lookup_sorter_dict c hc
  unfold run_sorter
  cases use_docker with
  | false =>
    simp only [Bool.false_eq_true, if_false]
    unfold run_sorter_local resolveLocal
    simp [hlook, hc]
  | true =>
    cases haveDocker with
    | false => simp
    | true =>
      simp only [if_true]
      unfold resolveDockerName
      simp [hc]

/-- C3 witness: the equivalence applied to Mountainsort4Sorter on the
local path. -/
theorem run_sorter_name_class_equiv_witness :
    run_sorter true anyExec (SorterRef.byName "mountainsort4") rec0
      defaultOpts false =
    run_sorter true anyExec (SorterRef.byClass Mountainsort4Sorter) rec0
      defaultOpts false :=
  run_sorter_name_class_equiv true false anyExec Mountainsort4Sorter rec0
    defaultOpts (by decide)

/-- C4: on the container path (docker available), a resolvable reference
together with a non-dumpable recording fails with NotTransportable and an
empty effect trace: no OutputLocation is created and the serializability
check precedes every filesystem effect of the container launcher. -/
theorem run_sorter_docker_not_dumpable (ex : ExecFn) (ref : SorterRef)
    (rec : Recording) (opts : RunOptions) (name : String)
    (hrec : rec.is_dumpable = false)
    (hres : resolveDockerName ref = Except.ok name) :
    run_sorter true ex ref rec opts true =
      (Except.error SorterError.notTransportable, []) := by
  unfold run_sorter
  rw [hres]
  simp only [if_true]
  unfold run_sorter_hither
  simp [hrec]

/-- C4 witness: a non-dumpable recording submitted to the docker path
with the mountainsort4 identifier. -/
theorem run_sorter_docker_not_dumpable_witness :
    run_sorter true anyExec (SorterRef.byName "mountainsort4")
      { is_dumpable := false, is_filtered := false,
        sampling_frequency := 30000 } defaultOpts true =
      (Except.error SorterError.notTransportable, []) :=
  run_sorter_docker_not_dumpable anyExec (SorterRef.byName "mountainsort4")
    _ defaultOpts "mountainsort4" (by decide) rfl

end SpikeSorters

namespace SpikeSorters

/-- C5 counterexample: with the default parameters, whose
noise_overlap_threshold is 15/100 (not None) but whose curation flag is
False, the curation step does not run: the trace has no curation event
and the written firings.mda holds the raw result even though curation at
that threshold would have dropped the unit (its overlap estimate 1
exceeds 15/100). Supplying a non-None noise_overlap_threshold therefore
does not by itself cause the curation step to run, contrary to the
claim. -/
theorem curation_skipped_despite_threshold :
    ms4_default_params.noise_overlap_threshold = some (15 / 100) ∧
    Effect.curationRun ∉
      (Mountainsort4Sorter_run [{ time := 5, label := 1 }] (fun _ => 1)
        rec0 ms4_default_params).2 ∧
    (Mountainsort4Sorter_run [{ time := 5, label := 1 }] (fun _ => 1)
        rec0 ms4_default_params).1.lookup "firings.mda" =
      some (FileContent.mda [5, 1]) ∧
    mountainsort4_curation (fun _ => 1) [{ time := 5, label := 1 }]
      (15 / 100) = [] := by
  refine ⟨rfl, by decide, rfl, ?_⟩
  rw [mountainsort4_curation]
  norm_num [List.filter]

/-- C5 amended: the curation step runs exactly when
noise_overlap_threshold is not None AND the curation flag is True; when
it runs, the written result is exactly the raw result with every event of
a unit whose estimated noise overlap exceeds the threshold dropped; and
curation is a pure function of the raw result and the threshold, hence
deterministic. -/
theorem curation_gating (ms4alg : List SpikeEvent) (noiseOverlap : Nat → ℚ)
    (rec : Recording) (p : MS4Params) :
    (Effect.curationRun ∈
        (Mountainsort4Sorter_run ms4alg noiseOverlap rec p).2 ↔
      p.noise_overlap_threshold.isSome = true ∧ p.curation = true) ∧
    (∀ thr, p.noise_overlap_threshold = some thr → p.curation = true →
      (Mountainsort4Sorter_run ms4alg noiseOverlap rec p).1 =
        ms4_write_result (mountainsort4_curation noiseOverlap ms4alg thr)
          rec.sampling_frequency) := by
  constructor
  · cases hn : p.noise_overlap_threshold <;> cases hcur : p.curation <;>
      simp only [Mountainsort4Sorter_run, hn, hcur, Option.isSome,
        List.mem_append, List.mem_singleton, List.mem_cons] <;>
      split_ifs <;> simp_all
  · intro thr hthr hcur
    simp [Mountainsort4Sorter_run, hthr, hcur]

/-- C5 witness: the amended theorem applied with curation switched on at
the default threshold. -/
theorem curation_gating_witness :
    (Mountainsort4Sorter_run [{ time := 5, label := 1 }] (fun _ => 1) rec0
        ms4_params_with_curation).1 =
      ms4_write_result
        (mountainsort4_curation (fun _ => 1) [{ time := 5, label := 1 }]
          (15 / 100))
        rec0.sampling_frequency :=
  (curation_gating [{ time := 5, label := 1 }] (fun _ => 1) rec0
      ms4_params_with_curation).2 (15 / 100) rfl rfl

/-- C6: the precontainer hook bind-mounts the host input directory
read-only at the fixed path /input and the host output directory
read-write at the fixed path /output, and rewrites the input and output
path keyword arguments of the job to those fixed paths; on success the
in-container function appends exactly one write of the serialized result
archive sorting_docker.npz into the output path, and the host launcher
reads that archive back. -/
theorem container_mounts_and_result_archive (images : String → String)
    (ctx : PreContainerContext) (ex : ExecFn) (name : String)
    (rec : Recording) (opts : RunOptions) (outdir : String)
    (s : List SpikeEvent) :
    (precontainer images ctx).bindMounts =
      ctx.bindMounts ++
        [ { source := ctx.input_directory, target := "/input",
            read_only := true },
          { source := ctx.output_directory, target := "/output",
            read_only := false } ] ∧
    (precontainer images ctx).input_directory = "/input" ∧
    (precontainer images ctx).output_directory = "/output" ∧
    ((run_sorter_docker_with_container ex name rec opts outdir).1 =
        Except.ok s →
      (run_sorter_docker_with_container ex name rec opts outdir).2 =
        (run_sorter_local ex (SorterRef.byName name) rec
            { opts with
              output_folder := some (outdir ++ "/working") }).2 ++
          [Effect.writeFile (outdir ++ "/sorting_docker.npz")]) ∧
    ((run_sorter_hither ex name rec opts).1 = Except.ok s →
      Effect.readFile
          (hitherOutputFolder name opts ++ "/sorting_docker.npz") ∈
        (run_sorter_hither ex name rec opts).2) := by
  refine ⟨rfl, rfl, rfl, ?_, ?_⟩
  · intro hok
    simp only [run_sorter_docker_with_container] at hok ⊢
    cases hinner : (run_sorter_local ex (SorterRef.byName name) rec
        { opts with output_folder := some (outdir ++ "/working") }).1 with
    | error e => simp [hinner] at hok
    | ok s2 => simp [hinner]
  · intro hok
    simp only [run_sorter_hither] at hok ⊢
    cases hd : rec.is_dumpable with
    | false => simp [hd] at hok
    | true =>
      simp only [hd, Bool.true_eq_false, if_false] at hok
      cases hjob : (run_sorter_docker_with_container ex name rec
          { opts with delete_output_folder := false }
          (hitherOutputFolder name opts)).1 with
      | error e => simp [hjob] at hok
      | ok s2 => simp [hjob, List.mem_append]

/-- C6 witness: the archive-write conjunct applied to a successful
concrete container job. -/
theorem container_mounts_and_result_archive_witness :
    (run_sorter_docker_with_container anyExec "mountainsort4" rec0
        defaultOpts "out").2 =
      (run_sorter_local anyExec (SorterRef.byName "mountainsort4") rec0
          { defaultOpts with
            output_folder := some ("out" ++ "/working") }).2 ++
        [Effect.writeFile ("out" ++ "/sorting_docker.npz")] :=
  (container_mounts_and_result_archive (fun _ => "image")
      { input_directory := "in", output_directory := "out",
        sorter_name := "mountainsort4", bindMounts := [], image := none }
      anyExec "mountainsort4" rec0 defaultOpts "out" []).2.2.2.1 rfl

end SpikeSorters

namespace SpikeSorters

/-- C7: every run of the Mountainsort4 backend produces exactly the two
required on-disk elements directly under its OutputLocation, the binary
spike-event artifact firings.mda and the plain-text sampling-rate sidecar
samplerate.txt (in that write order, and both write effects appear in the
trace), and result collection reads exactly these two files from directly
under the OutputLocation. -/
theorem ms4_on_disk_contract (ms4alg : List SpikeEvent)
    (noiseOverlap : Nat → ℚ) (rec : Recording) (p : MS4Params) :
    (Mountainsort4Sorter_run ms4alg noiseOverlap rec p).1.map Prod.fst =
      ["firings.mda", "samplerate.txt"] ∧
    Effect.writeFile "firings.mda" ∈
      (Mountainsort4Sorter_run ms4alg noiseOverlap rec p).2 ∧
    Effect.writeFile "samplerate.txt" ∈
      (Mountainsort4Sorter_run ms4alg noiseOverlap rec p).2 ∧
    (get_result_from_folder
        (Mountainsort4Sorter_run ms4alg noiseOverlap rec p).1).2 =
      ["samplerate.txt", "firings.mda"] := by
  refine ⟨rfl, ?_, ?_, rfl⟩ <;>
    simp [Mountainsort4Sorter_run, List.mem_append]

/-- C8: when a partitioned parallel run selects a worker-pool backend
that the compatibility flags of the resolved class mark as unsupported,
the run is rejected with UnsupportedConcurrencyModel and performs none of
the work of the body; a pool backend marked supported is accepted and the
body runs unchanged. -/
theorem parallel_pool_gating (c : SorterClass) (jb : String)
    (body : List Effect) :
    (c.compatible_with_parallel.lookup jb = some false →
      BaseSorter_run c true jb body =
        (Except.error SorterError.unsupportedConcurrencyModel, [])) ∧
    (c.compatible_with_parallel.lookup jb = some true →
      BaseSorter_run c true jb body = (Except.ok (), body)) := by
  constructor
  · intro h; simp [BaseSorter_run, h]
  · intro h; simp [BaseSorter_run, h]

/-- C8 witness: mountainsort4 rejects multiprocessing and threading and
accepts loky. -/
theorem parallel_pool_gating_witness :
    BaseSorter_run Mountainsort4Sorter true "multiprocessing"
        [Effect.sorterInvoked] =
      (Except.error SorterError.unsupportedConcurrencyModel, []) ∧
    BaseSorter_run Mountainsort4Sorter true "threading"
        [Effect.sorterInvoked] =
      (Except.error SorterError.unsupportedConcurrencyModel, []) ∧
    BaseSorter_run Mountainsort4Sorter true "loky" [Effect.sorterInvoked] =
      (Except.ok (), [Effect.sorterInvoked]) :=
  ⟨(parallel_pool_gating Mountainsort4Sorter "multiprocessing"
      [Effect.sorterInvoked]).1 rfl,
   (parallel_pool_gating Mountainsort4Sorter "threading"
      [Effect.sorterInvoked]).1 rfl,
   (parallel_pool_gating Mountainsort4Sorter "loky"
      [Effect.sorterInvoked]).2 rfl⟩

/-- C9: for a recording whose pre-filtered flag is set and parameters
with the filter switched on, the run prints the warning (and, when both
cutoff frequencies are not None, still applies its bandpass filter, never
an error); the bandpass filter is applied exactly when the filter
parameter is True and both cutoff frequencies are not None, so it is
skipped exactly when the filter is False or either cutoff is None. -/
theorem ms4_bandpass_behavior (ms4alg : List SpikeEvent)
    (noiseOverlap : Nat → ℚ) (rec : Recording) (p : MS4Params) :
    (rec.is_filtered = true → p.filter = true →
      Effect.printWarning ∈
        (Mountainsort4Sorter_run ms4alg noiseOverlap rec p).2) ∧
    (Effect.bandpassApplied ∈
        (Mountainsort4Sorter_run ms4alg noiseOverlap rec p).2 ↔
      p.filter = true ∧ p.freq_min.isSome = true ∧
        p.freq_max.isSome = true) := by
  constructor
  · intro hrec hfil
    simp only [Mountainsort4Sorter_run, hrec, hfil, List.mem_append]
    split_ifs <;> simp_all
  · rcases hn : p.noise_overlap_threshold with _ | thr <;>
      cases hcur : p.curation <;>
      rcases hmin : p.freq_min with _ | fmin <;>
      rcases hmax : p.freq_max with _ | fmax <;>
      cases hfil : p.filter <;>
      cases hrf : rec.is_filtered <;>
      simp [Mountainsort4Sorter_run, hn, hcur, hmin, hmax, hfil, hrf]

/-- C9 witness: an already-filtered recording with the default parameters
gets the warning and the bandpass filter. -/
theorem ms4_bandpass_behavior_witness :
    Effect.printWarning ∈
      (Mountainsort4Sorter_run [] (fun _ => 0) recFiltered
        ms4_default_params).2 ∧
    Effect.bandpassApplied ∈
      (Mountainsort4Sorter_run [] (fun _ => 0) recFiltered
        ms4_default_params).2 :=
  ⟨(ms4_bandpass_behavior [] (fun _ => 0) recFiltered ms4_default_params).1
      rfl rfl,
   (ms4_bandpass_behavior [] (fun _ => 0) recFiltered
      ms4_default_params).2.mpr ⟨rfl, rfl, rfl⟩⟩

/-- C10: available_sorters lists exactly the identifiers of the
registered classes, sorted under the code-point order; installed_sorters
is sorted for every valuation of the per-class installed predicate; and
installed_sorters is a subset of available_sorters for every such
valuation. -/
theorem sorter_listing_sorted_and_subset (is_installed : SorterClass → Bool) :
    List.Sorted (fun a b => strLeB a b = true) available_sorters ∧
    (∀ s, s ∈ available_sorters ↔
      s ∈ sorter_full_list.map (fun c => c.sorter_name)) ∧
    List.Sorted (fun a b => strLeB a b = true)
      (installed_sorters is_installed) ∧
    (∀ s, s ∈ installed_sorters is_installed → s ∈ available_sorters) := by
  refine ⟨pySorted_sorted _, ?_, pySorted_sorted _, ?_⟩
  · intro s
    rw [available_sorters, mem_pySorted]
    simp [sorter_dict, List.map_map]
  · intro s hs
    rw [installed_sorters, mem_pySorted] at hs
    rw [available_sorters, mem_pySorted]
    simp only [sorter_dict, List.map_map, List.mem_map] at hs ⊢
    obtain ⟨c, hc, rfl⟩ := hs
    exact ⟨c, List.mem_of_mem_filter hc, rfl⟩

/-- C10 witness: with every class considered installed, mountainsort4 is
in the installed listing and hence in the available listing. -/
theorem sorter_listing_sorted_and_subset_witness :
    "mountainsort4" ∈ available_sorters :=
  (sorter_listing_sorted_and_subset (fun _ => true)).2.2.2 "mountainsort4"
    (by decide)

end SpikeSorters
